import Mathlib

/-!
Verification of the query-generation-and-execution engine of the
Epic-Analyst repository (`text_to_sql_engine.py`), shallowly embedded
in Lean.  Python strings are modelled as `String`/`List Char`; the
database and language-model capabilities are modelled as explicit
environments recording the outcome of each external call.
-/

/-! ## Python string primitives -/

/-- Python whitespace for `str.strip` / the regex class `\s` (ASCII part:
space, tab, newline, carriage return, vertical tab, form feed). -/
def isPySpace (c : Char) : Bool :=
  c = ' ' || c = '\t' || c = '\n' || c = '\r' || c = '\x0b' || c = '\x0c'

/-- Python `str.strip()` on a character list: drop whitespace from both ends. -/
def pyStripL (l : List Char) : List Char :=
  ((l.dropWhile isPySpace).reverse.dropWhile isPySpace).reverse

/-- Python `str.strip()`. -/
def pyStrip (s : String) : String :=
  ⟨pyStripL s.data⟩

/-- Python `str.upper()` (ASCII model: `Char.toUpper` maps a-z to A-Z). -/
def pyUpper (s : String) : String :=
  ⟨s.data.map Char.toUpper⟩

/-- Python `str.lower()` (ASCII model: `Char.toLower` maps A-Z to a-z). -/
def pyLower (s : String) : String :=
  ⟨s.data.map Char.toLower⟩

/-- Occurrence of `needle` as a contiguous subsequence of `hay`:
the model of Python's `needle in hay` on strings. -/
def occursIn (needle : List Char) : List Char → Bool
  | [] => needle.isEmpty
  | c :: t => needle.isPrefixOf (c :: t) || occursIn needle t

/-- Python `needle in hay` for strings. -/
def pyContains (hay needle : String) : Bool :=
  occursIn needle.data hay.data

/-! ## clean_sql_query

`clean_sql_query` applies, in order:
`re.sub(r'^```sql\s*', '', sql, flags=re.MULTILINE)`,
`re.sub(r'^```\s*', '', sql, flags=re.MULTILINE)`,
`re.sub(r'```$', '', sql, flags=re.MULTILINE)`,
`str.strip`, and appends `';'` if absent.

Each `re.sub` is modelled by a left-to-right scan over the character
list.  The scans use an explicit fuel argument for structural
termination; fuel equal to the length of the list is always sufficient
because every step consumes at least one character. -/

/-- One `re.sub(r'^```sql\s*', '', ·, flags=re.MULTILINE)` scan.
`atStart` records whether the current position is a line start (string
start or just after a newline); `\s*` greedily consumes whitespace,
and the position after the match is a line start exactly when the last
consumed whitespace character is a newline. -/
def fenceSqlGo : Nat → Bool → List Char → List Char
  | 0, _, l => l
  | _ + 1, _, [] => []
  | fuel + 1, atStart, c :: cs =>
    if atStart && "```sql".data.isPrefixOf (c :: cs) then
      let rest := (c :: cs).drop 6
      fenceSqlGo fuel (decide ((rest.takeWhile isPySpace).getLast? = some '\n'))
        (rest.dropWhile isPySpace)
    else
      c :: fenceSqlGo fuel (c = '\n') cs

/-- One `re.sub(r'^```\s*', '', ·, flags=re.MULTILINE)` scan. -/
def fenceBareGo : Nat → Bool → List Char → List Char
  | 0, _, l => l
  | _ + 1, _, [] => []
  | fuel + 1, atStart, c :: cs =>
    if atStart && "```".data.isPrefixOf (c :: cs) then
      let rest := (c :: cs).drop 3
      fenceBareGo fuel (decide ((rest.takeWhile isPySpace).getLast? = some '\n'))
        (rest.dropWhile isPySpace)
    else
      c :: fenceBareGo fuel (c = '\n') cs

/-- In multiline mode `$` matches at the end of the string and just
before every newline. -/
def atLineEnd : List Char → Bool
  | [] => true
  | c :: _ => c = '\n'

/-- One `re.sub(r'```$', '', ·, flags=re.MULTILINE)` scan. -/
def fenceEndGo : Nat → List Char → List Char
  | 0, l => l
  | _ + 1, [] => []
  | fuel + 1, c :: cs =>
    if "```".data.isPrefixOf (c :: cs) && atLineEnd ((c :: cs).drop 3) then
      fenceEndGo fuel ((c :: cs).drop 3)
    else
      c :: fenceEndGo fuel cs

/-- `TextToSQLEngine.clean_sql_query`: strip code-fence markers, trim
whitespace, and ensure a trailing semicolon. -/
def clean_sql_query (sql : String) : String :=
  let l1 := fenceSqlGo sql.data.length true sql.data
  let l2 := fenceBareGo l1.length true l1
  let l3 := fenceEndGo l2.length l2
  let l4 := pyStripL l3
  if l4.getLast? = some ';' then ⟨l4⟩ else ⟨l4 ++ [';']⟩

/-! ## validate_sql -/

/-- Result of `validate_sql`: the dict `{'valid': ..., 'error': ...}`. -/
structure ValidationResult where
  valid : Bool
  error : Option String
deriving DecidableEq

/-- The fixed forbidden-keyword list of `validate_sql`, in source order. -/
def dangerous_keywords : List String :=
  ["DROP", "DELETE", "UPDATE", "INSERT", "ALTER", "CREATE", "TRUNCATE",
   "GRANT", "REVOKE"]

/-- `TextToSQLEngine.validate_sql`: reject on the first forbidden keyword
occurring anywhere in the upper-cased text, then reject unless the
stripped upper-cased text starts with `SELECT`. -/
def validate_sql (sql : String) : ValidationResult :=
  match dangerous_keywords.find? (fun k => occursIn k.data (pyUpper sql).data) with
  | some keyword =>
    ⟨false, some ("Query contains forbidden operation: " ++ keyword)⟩
  | none =>
    if "SELECT".data.isPrefixOf (pyStripL (pyUpper sql).data) then
      ⟨true, none⟩
    else
      ⟨false, some ("Only SELECT queries are allowed")⟩

/-! ## generate_sql

`generate_sql` builds a prompt, invokes the language model, strips the
raw response and normalizes it with `clean_sql_query`, all inside a
`try`/`except` that converts any exception into `success=False` with
`str(e)` as error.  The fallible external part (prompt construction via
file reads plus `model.generate_content`) is modelled by an
`Except String String` argument: `ok raw` is the raw model text,
`error e` an exception with message `e`.  The normalization itself
(`str.strip` and `clean_sql_query`) is total on strings, in Python as
in this model. -/

/-- The dict returned by `generate_sql`. -/
structure GeneratedQuery where
  success : Bool
  sql : Option String
  error : Option String
deriving DecidableEq

/-- `TextToSQLEngine.generate_sql`. -/
def generate_sql (modelResponse : Except String String) : GeneratedQuery :=
  match modelResponse with
  | Except.ok text => ⟨true, some (clean_sql_query (pyStrip text)), none⟩
  | Except.error e => ⟨false, none, some e⟩

/-! ## identify_relevant_tables -/

/-- The table-to-keywords map of `identify_relevant_tables`, in source
(dict insertion) order. -/
def table_keywords : List (String × List String) :=
  [("lead_master", ["lead", "customer", "mobile", "phone", "source", "cre", "follow"]),
   ("ps_followup_master", ["followup", "follow-up", "follow up", "ps", "pre-sales", "presales"]),
   ("qualified_leads", ["qualified", "qualify"]),
   ("booking_and_retail_master", ["booking", "retail", "booked", "retailed"]),
   ("trade_in_master", ["trade", "trade-in", "exchange"]),
   ("users", ["user", "employee", "staff", "cre", "sales"]),
   ("duplicate_leads", ["duplicate", "duplicates"]),
   ("source_subsource_mapping", ["source", "subsource", "sub-source"])]

/-- The fallback list used when no keyword matches. -/
def main_tables : List String :=
  ["lead_master", "ps_followup_master", "qualified_leads", "users"]

/-- `TextToSQLEngine.identify_relevant_tables`: select every table one of
whose keywords occurs in the lower-cased question, in map order;
fall back to the main tables when nothing matches. -/
def identify_relevant_tables (user_query : String) : List String :=
  let lower := (pyLower user_query).data
  let relevant := (table_keywords.filter
    (fun tk => tk.2.any (fun k => occursIn k.data lower))).map Prod.fst
  if relevant.isEmpty then main_tables else relevant

/-! ## determine_chart_type (decision part)

`determine_chart_type` first decides whether to visualize at all; only
when that decision is positive does it invoke the language model to pick
a chart type.  The decision part is pure and is embedded below; the
outcome `askModel` marks the transition to the model invocation. -/

/-- A result row as materialized by `execute_query`: a Python dict in
insertion order.  Values are kept as the strings `str(value)` renders
them to, which is what the chart classifier inspects. -/
abbrev PyRecord := List (String × String)

/-- The visualization-intent keyword list, in source order. -/
def visualization_keywords : List String :=
  ["chart", "graph", "plot", "visualize", "show", "display", "compare",
   "trend", "over time", "distribution", "percentage", "ratio",
   "breakdown", "analysis"]

/-- The markers whose occurrence in a sample value makes a column
date-like, in source order. -/
def date_markers : List String :=
  ["-", "/", "202", "201", "jan", "feb", "mar", "apr", "may", "jun",
   "jul", "aug", "sep", "oct", "nov", "dec"]

/-- Run of digits allowing single underscores between digits, after an
initial digit has been consumed (CPython number grammar). -/
def digitRunAux : List Char → List Char
  | [] => []
  | '_' :: c :: cs => if c.isDigit then digitRunAux cs else '_' :: c :: cs
  | c :: cs => if c.isDigit then digitRunAux cs else c :: cs

/-- Consume a digit run (at least one digit, single underscores allowed
between digits); `none` when the input does not start with a digit. -/
def digitRun : List Char → Option (List Char)
  | [] => none
  | c :: cs => if c.isDigit then some (digitRunAux cs) else none

/-- Drop one leading sign character. -/
def stripSign : List Char → List Char
  | [] => []
  | c :: cs => if c = '+' || c = '-' then cs else c :: cs

/-- Model of CPython `float(s)` acceptance on a string: optional
surrounding whitespace, optional sign, then `inf`/`infinity`/`nan`
(case-insensitive) or a decimal literal `[digits][.digits][e[sign]digits]`
with at least one digit in the mantissa. -/
def isPyFloatStr (s : String) : Bool :=
  let t := stripSign (pyStripL s.data)
  if t.map Char.toLower = "inf".data || t.map Char.toLower = "infinity".data
      || t.map Char.toLower = "nan".data then
    true
  else
    let (rest1, hasInt) := match digitRun t with
      | some r => (r, true)
      | none => (t, false)
    let (rest2, hasFrac) := match rest1 with
      | '.' :: cs =>
        (match digitRun cs with
         | some r => (r, true)
         | none => (cs, false))
      | _ => (rest1, false)
    if !hasInt && !hasFrac then
      false
    else
      match rest2 with
      | [] => true
      | c :: cs =>
        if c = 'e' || c = 'E' then
          match digitRun (stripSign cs) with
          | some r => r.isEmpty
          | none => false
        else
          false

/-- The three column-class lists accumulated by `determine_chart_type`. -/
structure ColumnClasses where
  numeric : List String
  categorical : List String
  date : List String
deriving DecidableEq

/-- Classify one column: look at the first present value among the first
10 rows; a column with no present value is skipped; numeric if that value
parses as a float, date-like if it contains a date marker, otherwise
categorical. -/
def classifyColumn (data : List PyRecord) (col : String)
    (acc : ColumnClasses) : ColumnClasses :=
  match (data.take 10).filterMap (fun row => row.lookup col) with
  | [] => acc
  | v :: _ =>
    if isPyFloatStr v then
      { acc with numeric := acc.numeric ++ [col] }
    else if date_markers.any (fun t => occursIn t.data v.data) then
      { acc with date := acc.date ++ [col] }
    else
      { acc with categorical := acc.categorical ++ [col] }

/-- The column classification loop of `determine_chart_type`. -/
def classifyColumns (data : List PyRecord) (columns : List String) : ColumnClasses :=
  columns.foldl (fun acc col => classifyColumn data col acc) ⟨[], [], []⟩

/-- Outcome of the decision part of `determine_chart_type`: return
`{'should_visualize': False}` on empty data, return the default config
without invoking the model, or proceed to the model invocation. -/
inductive ChartDecision where
  | emptyData : ChartDecision
  | noViz : ChartDecision
  | askModel (cls : ColumnClasses) : ChartDecision
deriving DecidableEq

/-- The decision part of `TextToSQLEngine.determine_chart_type`:
visualize when the question contains a visualization keyword, or when
the result shape triggers one of the three heuristics; only then is the
language model invoked (`askModel`). -/
def determine_chart_decision (user_query : String) (data : List PyRecord)
    (columns : List String) : ChartDecision :=
  if data.isEmpty then ChartDecision.emptyData
  else
    let query_lower := (pyLower user_query).data
    let kw := visualization_keywords.any (fun k => occursIn k.data query_lower)
    let cls := classifyColumns data columns
    let has_numeric_data := decide (0 < cls.numeric.length)
    let has_time_series := decide (0 < cls.date.length)
    let has_categories := decide (0 < cls.categorical.length)
    let should_visualize :=
      kw || (has_numeric_data && has_categories && decide (2 ≤ data.length))
         || (has_numeric_data && has_time_series && decide (3 ≤ data.length))
         || (has_numeric_data && decide (5 ≤ data.length))
    if should_visualize then ChartDecision.askModel cls else ChartDecision.noViz

/-! ## execute_query

`execute_query` ensures a connection, re-validates the SQL, executes it
on the cursor, reconnects and retries exactly once on a connection-class
error (`OperationalError`/`InterfaceError`/`InternalError`), and
materializes the rows into dicts.  The external database capability is
modelled by a `DBEnv` recording the outcome of each call in program
order: the result of the first `_ensure_connection`, of the first
`cursor.execute`, of the `_ensure_connection` performed after a
connection-class error, and of the retried `cursor.execute`.  A
successful execute outcome carries the cursor description's column
names and the fetched rows (row values as the strings they render to). -/

/-- Python dict insert: replace the value at an existing key in place,
otherwise append the binding. -/
def pyDictInsert (d : List (String × String)) (k v : String) :
    List (String × String) :=
  if d.any (fun p => p.1 = k) then
    d.map (fun p => if p.1 = k then (k, v) else p)
  else
    d ++ [(k, v)]

/-- Python `dict(pairs)`: left-to-right insertion. -/
def pyDict (pairs : List (String × String)) : List (String × String) :=
  pairs.foldl (fun d kv => pyDictInsert d kv.1 kv.2) []

/-- Outcome of one `cursor.execute(sql)` (with the subsequent fetch):
success with description and rows, a connection-class error
(`OperationalError`/`InterfaceError`/`InternalError`), another
`psycopg2.Error`, or a non-psycopg2 exception; errors carry `str(e)`. -/
inductive ExecOutcome where
  | ok (desc : List String) (rows : List (List String)) : ExecOutcome
  | connError (msg : String) : ExecOutcome
  | pgError (msg : String) : ExecOutcome
  | otherError (msg : String) : ExecOutcome
deriving DecidableEq

/-- The exception message of a failing execute outcome. -/
def ExecOutcome.errMsg : ExecOutcome → Option String
  | ExecOutcome.ok _ _ => none
  | ExecOutcome.connError m => some m
  | ExecOutcome.pgError m => some m
  | ExecOutcome.otherError m => some m

/-- Environment of one `execute_query` call: outcomes of the external
calls in program order. -/
structure DBEnv where
  ensure1 : Bool
  ensure2 : Bool
  exec1 : ExecOutcome
  exec2 : ExecOutcome
deriving DecidableEq

/-- The dict returned by `execute_query`.  `columns?` is `none` exactly
when the `'columns'` key is absent from the returned dict (`data` and
`error` keys are always present, holding `None` where the Python value
is `None`). -/
structure PyExecResult where
  success : Bool
  data : Option (List PyRecord)
  columns? : Option (List String)
  error : Option String
  row_count : Nat
deriving DecidableEq

/-- An `execute_query` call outcome together with how many times the
statement was submitted to `cursor.execute` and how many
`_ensure_connection` calls were made. -/
structure ExecCall where
  result : PyExecResult
  attempts : Nat
  ensures : Nat
deriving DecidableEq

/-- Materialization of a successful execute: columns from the cursor
description, each row zipped positionally with the column names into a
dict, row order preserved; `row_count = len(data)`. -/
def successResult (desc : List String) (rows : List (List String)) : PyExecResult :=
  let data := rows.map (fun row => pyDict (desc.zip row))
  ⟨true, some data, some desc, none, data.length⟩

/-- `TextToSQLEngine.execute_query`. -/
def executeQuery (env : DBEnv) (sql : String) : ExecCall :=
  if env.ensure1 = false then
    ⟨⟨false, none, none, some ("Failed to establish database connection"), 0⟩, 0, 1⟩
  else if (validate_sql sql).valid = false then
    ⟨⟨false, none, none, (validate_sql sql).error, 0⟩, 0, 1⟩
  else
    match env.exec1 with
    | ExecOutcome.ok desc rows => ⟨successResult desc rows, 1, 1⟩
    | ExecOutcome.connError m =>
      if env.ensure2 = false then
        ⟨⟨false, none, none, some ("Failed to reconnect to database: " ++ m), 0⟩, 1, 2⟩
      else
        (match env.exec2 with
         | ExecOutcome.ok desc rows => ⟨successResult desc rows, 2, 2⟩
         | ExecOutcome.connError m2 =>
           ⟨⟨false, none, none,
             some ("Query execution failed after reconnect: " ++ m2), 0⟩, 2, 2⟩
         | ExecOutcome.pgError m2 =>
           ⟨⟨false, none, none,
             some ("Query execution failed after reconnect: " ++ m2), 0⟩, 2, 2⟩
         | ExecOutcome.otherError m2 =>
           ⟨⟨false, none, none,
             some ("Query execution failed after reconnect: " ++ m2), 0⟩, 2, 2⟩)
    | ExecOutcome.pgError m =>
      ⟨⟨false, none, none, some ("Database error: " ++ m), 0⟩, 1, 1⟩
    | ExecOutcome.otherError m =>
      ⟨⟨false, none, none, some m, 0⟩, 1, 1⟩

/-- The claim-C4 reading of "pairs column names positionally with row
values": looking the i-th column name up in the record yields the i-th
row value. -/
def pairsPositionally (record : List (String × String)) (cols : List String)
    (row : List String) : Prop :=
  ∀ i : Nat, (hc : i < cols.length) → (hr : i < row.length) →
    record.lookup (cols.get ⟨i, hc⟩) = some (row.get ⟨i, hr⟩)

/-! ## Concrete test environments and data -/

def envRetryFail : DBEnv :=
  ⟨true, true, ExecOutcome.connError ("server closed the connection"),
   ExecOutcome.pgError ("still unreachable")⟩

def envRetryOk : DBEnv :=
  ⟨true, true, ExecOutcome.connError ("server closed the connection"),
   ExecOutcome.ok ["c"] [["1"]]⟩

def envValidationOnly : DBEnv :=
  ⟨true, true, ExecOutcome.ok [] [], ExecOutcome.ok [] []⟩

def envReachable : DBEnv :=
  ⟨true, true, ExecOutcome.ok [] [], ExecOutcome.ok [] []⟩

def envUnreachable : DBEnv :=
  ⟨false, false, ExecOutcome.ok [] [], ExecOutcome.ok [] []⟩

def envTwoCols : DBEnv :=
  ⟨true, true, ExecOutcome.ok ["a", "b"] [["1", "x"], ["2", "y"]],
   ExecOutcome.ok [] []⟩

def envDupCols : DBEnv :=
  ⟨true, true, ExecOutcome.ok ["a", "a"] [["1", "2"]], ExecOutcome.ok [] []⟩

def rowsDatesOnly : List PyRecord :=
  [[("d", "2024-01-05")], [("d", "2024-01-06")], [("d", "2024-01-07")]]

def rowsNumDates : List PyRecord :=
  [[("n", "5"), ("d", "2024-01-05")], [("n", "6"), ("d", "2024-01-06")],
   [("n", "7"), ("d", "2024-01-07")]]

def rowsOneNum : List PyRecord := [[("n", "7")]]

/-! ## Helper lemmas -/

theorem prefix_shrink (n m l : List Char) (h : (n ++ m).isPrefixOf l = true) :
    n.isPrefixOf l = true := by
  induction n generalizing l with
  | nil => simp
  | cons a t ih =>
    cases l with
    | nil => simp at h
    | cons b bs =>
      rw [List.cons_append, List.isPrefixOf_cons₂] at h
      rw [List.isPrefixOf_cons₂]
      rcases Bool.and_eq_true_iff.mp h with ⟨h1, h2⟩
      exact Bool.and_eq_true_iff.mpr ⟨h1, ih bs h2⟩

theorem occursIn_tail_false (n : List Char) (c : Char) (cs : List Char)
    (h : occursIn n (c :: cs) = false) :
    n.isPrefixOf (c :: cs) = false ∧ occursIn n cs = false := by
  rw [occursIn] at h
  rcases Bool.or_eq_false_iff.mp h with ⟨h1, h2⟩
  exact ⟨h1, h2⟩

theorem fenceSqlGo_id (fuel : Nat) (b : Bool) (l : List Char)
    (h : occursIn "```".data l = false) :
    fenceSqlGo fuel b l = l := by
  induction fuel generalizing b l with
  | zero => rfl
  | succ f ih =>
    cases l with
    | nil => rfl
    | cons c cs =>
      obtain ⟨hpre, htail⟩ := occursIn_tail_false _ _ _ h
      have hpre6 : "```sql".data.isPrefixOf (c :: cs) = false := by
        by_contra hc
        rw [Bool.not_eq_false] at hc
        have hsplit : ("```sql").data = ("```").data ++ ("sql").data := by decide
        rw [hsplit] at hc
        rw [prefix_shrink _ _ _ hc] at hpre
        exact Bool.true_eq_false.mp hpre
      simp only [fenceSqlGo, hpre6, Bool.and_false, Bool.false_eq_true, if_false]
      rw [ih _ cs htail]

theorem fenceBareGo_id (fuel : Nat) (b : Bool) (l : List Char)
    (h : occursIn "```".data l = false) :
    fenceBareGo fuel b l = l := by
  induction fuel generalizing b l with
  | zero => rfl
  | succ f ih =>
    cases l with
    | nil => rfl
    | cons c cs =>
      obtain ⟨hpre, htail⟩ := occursIn_tail_false _ _ _ h
      simp only [fenceBareGo, hpre, Bool.and_false, Bool.false_eq_true, if_false]
      rw [ih _ cs htail]

theorem fenceEndGo_id (fuel : Nat) (l : List Char)
    (h : occursIn "```".data l = false) :
    fenceEndGo fuel l = l := by
  induction fuel generalizing l with
  | zero => rfl
  | succ f ih =>
    cases l with
    | nil => rfl
    | cons c cs =>
      obtain ⟨hpre, htail⟩ := occursIn_tail_false _ _ _ h
      simp only [fenceEndGo, hpre, Bool.false_and, Bool.false_eq_true, if_false]
      rw [ih cs htail]

theorem dropWhile_eq_self_of_head (p : Char → Bool) (l : List Char)
    (h : ∀ c, l.head? = some c → p c = false) : l.dropWhile p = l := by
  cases l with
  | nil => rfl
  | cons c cs =>
    have hc := h c rfl
    simp [List.dropWhile_cons, hc]

theorem pyStripL_head (l : List Char) (c : Char)
    (h : (pyStripL l).head? = some c) : isPySpace c = false := by
  unfold pyStripL at h
  rw [List.head?_reverse] at h
  have hsuf := List.dropWhile_suffix (l := (l.dropWhile isPySpace).reverse) isPySpace
  obtain ⟨u, hu⟩ := hsuf
  have hlast : (l.dropWhile isPySpace).reverse.getLast? = some c := by
    rw [← hu, List.getLast?_append, h]
    rfl
  rw [List.getLast?_reverse] at hlast
  have hmm := List.head?_dropWhile_not isPySpace l
  rw [hlast] at hmm
  exact hmm

theorem pyStripL_last (l : List Char) (c : Char)
    (h : (pyStripL l).getLast? = some c) : isPySpace c = false := by
  unfold pyStripL at h
  rw [List.getLast?_reverse] at h
  have hmm := List.head?_dropWhile_not isPySpace ((l.dropWhile isPySpace).reverse)
  rw [h] at hmm
  exact hmm

theorem pyStripL_eq_self (l : List Char)
    (hh : ∀ c, l.head? = some c → isPySpace c = false)
    (hl : ∀ c, l.getLast? = some c → isPySpace c = false) :
    pyStripL l = l := by
  unfold pyStripL
  rw [dropWhile_eq_self_of_head _ _ hh]
  rw [dropWhile_eq_self_of_head _ _ (fun c hc => hl c (by rwa [List.head?_reverse] at hc))]
  exact List.reverse_reverse l

theorem pyStripL_idem (l : List Char) : pyStripL (pyStripL l) = pyStripL l :=
  pyStripL_eq_self _ (pyStripL_head l) (pyStripL_last l)

theorem pyStripL_append_semi (l : List Char) :
    pyStripL (pyStripL l ++ [';']) = pyStripL l ++ [';'] := by
  apply pyStripL_eq_self
  · intro c hc
    cases hsl : pyStripL l with
    | nil =>
      rw [hsl] at hc
      simp at hc
      rw [← hc]
      decide
    | cons d ds =>
      rw [hsl] at hc
      simp at hc
      rw [← hc]
      exact pyStripL_head l d (by rw [hsl]; rfl)
  · intro c hc
    rw [List.getLast?_concat] at hc
    rw [← Option.some_inj.mp hc]
    decide

theorem clean_ends_semi (s : String) :
    (clean_sql_query s).data.getLast? = some ';' := by
  simp only [clean_sql_query]
  split
  case isTrue h => exact h
  case isFalse h => exact List.getLast?_concat _

theorem clean_data_stripped (s : String) :
    pyStripL (clean_sql_query s).data = (clean_sql_query s).data := by
  simp only [clean_sql_query]
  split
  case isTrue h => exact pyStripL_idem _
  case isFalse h => exact pyStripL_append_semi _

theorem clean_sql_query_eq_self (t : String)
    (hfix : occursIn "```".data t.data = false)
    (hstrip : pyStripL t.data = t.data)
    (hsemi : t.data.getLast? = some ';') :
    clean_sql_query t = t := by
  simp only [clean_sql_query]
  rw [fenceSqlGo_id _ _ _ hfix, fenceBareGo_id _ _ _ hfix, fenceEndGo_id _ _ hfix,
    hstrip, if_pos hsemi]

theorem pyDictInsert_of_not_mem (d : List (String × String)) (k v : String)
    (h : ∀ p ∈ d, p.1 ≠ k) : pyDictInsert d k v = d ++ [(k, v)] := by
  have hcond : d.any (fun p => decide (p.1 = k)) = false := by
    rw [List.any_eq_false]
    intro p hp
    simpa using h p hp
  simp [pyDictInsert, hcond]

theorem pyDict_go_eq (pairs acc : List (String × String))
    (h : ((acc ++ pairs).map Prod.fst).Nodup) :
    pairs.foldl (fun d kv => pyDictInsert d kv.1 kv.2) acc = acc ++ pairs := by
  induction pairs generalizing acc with
  | nil => simp
  | cons kv rest ih =>
    obtain ⟨k, v⟩ := kv
    have hins : pyDictInsert acc k v = acc ++ [(k, v)] := by
      apply pyDictInsert_of_not_mem
      intro p hp hpk
      have hk1 : k ∈ acc.map Prod.fst := List.mem_map.mpr ⟨p, hp, hpk⟩
      have hdisj := (List.nodup_append.mp (by simpa using h)).2.2
      exact hdisj hk1 (List.mem_cons_self _ _)
    rw [List.foldl_cons, hins]
    have h' : (((acc ++ [(k, v)]) ++ rest).map Prod.fst).Nodup := by
      rw [List.append_assoc]
      simpa using h
    rw [ih (acc ++ [(k, v)]) h']
    simp

theorem pyDict_eq_of_nodup (pairs : List (String × String))
    (h : (pairs.map Prod.fst).Nodup) : pyDict pairs = pairs := by
  simpa using pyDict_go_eq pairs [] (by simpa using h)

theorem zip_map_fst_isPre (l₁ : List String) (l₂ : List String) :
    ((l₁.zip l₂).map Prod.fst) <+: l₁ := by
  induction l₁ generalizing l₂ with
  | nil => simp
  | cons a t ih =>
    cases l₂ with
    | nil => simp
    | cons b t2 =>
      obtain ⟨r, hr⟩ := ih t2
      exact ⟨r, by simp [hr]⟩

theorem lookup_zip_nodup (cols : List String) (hnd : cols.Nodup) :
    ∀ (row : List String) (i : Nat) (hc : i < cols.length) (hr : i < row.length),
      (cols.zip row).lookup (cols.get ⟨i, hc⟩) = some (row.get ⟨i, hr⟩) := by
  induction cols with
  | nil => intro row i hc; simp at hc
  | cons c ct ih =>
    intro row i hc hr
    cases row with
    | nil => simp at hr
    | cons r rt =>
      cases i with
      | zero => simp [List.lookup]
      | succ j =>
        have hjc : j < ct.length := by simpa using hc
        have hjr : j < rt.length := by simpa using hr
        have hmem : ct.get ⟨j, hjc⟩ ∈ ct := List.get_mem ct j hjc
        have hne : (ct.get ⟨j, hjc⟩ == c) = false := by
          rw [beq_eq_false_iff_ne]
          intro he
          exact (List.nodup_cons.mp hnd).1 (he ▸ hmem)
        simp only [List.zip_cons_cons, List.get_cons_succ, List.lookup, hne]
        exact ih (List.nodup_cons.mp hnd).2 rt j hjc hjr

theorem pyDict_pairs_pos (cols row : List String) (hnd : cols.Nodup) :
    pairsPositionally (pyDict (cols.zip row)) cols row := by
  intro i hc hr
  rw [pyDict_eq_of_nodup _ (List.Nodup.sublist ((zip_map_fst_isPre cols row).sublist) hnd)]
  exact lookup_zip_nodup cols hnd row i hc hr

example : pyDict [("a", "1"), ("a", "2")] = [("a", "2")] := by decide
example :
    (executeQuery ⟨true, true, ExecOutcome.ok ["a", "b"] [["1", "x"], ["2", "y"]],
       ExecOutcome.ok [] []⟩ ("SELECT a, b FROM t")).result.data
    = some [[("a", "1"), ("b", "x")], [("a", "2"), ("b", "y")]] := by decide
example :
    (executeQuery ⟨true, false, ExecOutcome.connError ("down"),
       ExecOutcome.ok [] []⟩ ("SELECT 1")).result.error
    = some ("Failed to reconnect to database: down") := by decide

example : (validate_sql ("SELECT * FROM lead_master")).valid = true := by decide
example : (validate_sql ("select 1")).valid = true := by decide
example : (validate_sql ("DROP TABLE x")).error
    = some ("Query contains forbidden operation: DROP") := by decide
example : (validate_sql ("  update t set a = 1")).valid = false := by decide
example : clean_sql_query ("```sql\nSELECT 1\n```") = "SELECT 1;" := by decide
example : clean_sql_query ("  ```sql select") = "```sql select;" := by decide
example : clean_sql_query ("```sql select;") = "select;" := by decide
example : identify_relevant_tables ("How many leads last week?") = ["lead_master"] := by decide
example : identify_relevant_tables ("hmm") = main_tables := by decide
example : isPyFloatStr ("5") = true := by decide
example : isPyFloatStr (" -3.25e2 ") = true := by decide
example : isPyFloatStr ("2024-01-05") = false := by decide
example : isPyFloatStr ("inf") = true := by decide
example : isPyFloatStr ("1_0") = true := by decide
example : isPyFloatStr ("1_") = false := by decide
example : isPyFloatStr ("abc") = false := by decide
example :
    determine_chart_decision ("dates in january")
      [[("d", "2024-01-05")], [("d", "2024-01-06")], [("d", "2024-01-07")]] ["d"]
      = ChartDecision.noViz := by decide
example :
    determine_chart_decision ("dates in january")
      [[("n", "5"), ("d", "2024-01-05")], [("n", "6"), ("d", "2024-01-06")],
       [("n", "7"), ("d", "2024-01-07")]] ["n", "d"]
      = ChartDecision.askModel ⟨["n"], [], ["d"]⟩ := by decide

/-! ## Claim theorems -/

/-- C1: for every SQL string containing any forbidden keyword of
{DROP, DELETE, UPDATE, INSERT, ALTER, CREATE, TRUNCATE, GRANT, REVOKE}
case-insensitively anywhere in the text, `validate_sql` returns
`valid=false` with an error message naming the matched keyword. -/
theorem C1_validate_rejects_forbidden (sql : String)
    (h : ∃ k, k ∈ dangerous_keywords ∧ occursIn k.data (pyUpper sql).data = true) :
    (validate_sql sql).valid = false ∧
    ∃ k, k ∈ dangerous_keywords ∧ occursIn k.data (pyUpper sql).data = true ∧
      (validate_sql sql).error = some ("Query contains forbidden operation: " ++ k) := by
  obtain ⟨k0, hk0, hin0⟩ := h
  cases hf : dangerous_keywords.find? (fun k => occursIn k.data (pyUpper sql).data) with
  | none =>
    rw [List.find?_eq_none] at hf
    exact absurd hin0 (by simpa using hf k0 hk0)
  | some k =>
    refine ⟨?_, k, List.mem_of_find?_eq_some hf, by simpa using List.find?_some hf, ?_⟩
    · simp [validate_sql, hf]
    · simp [validate_sql, hf]

theorem C1_witness :
    (∃ k, k ∈ dangerous_keywords ∧
      occursIn k.data (pyUpper ("DROP TABLE students")).data = true) ∧
    (validate_sql ("DROP TABLE students")).valid = false :=
  ⟨⟨"DROP", by decide, by decide⟩,
   (C1_validate_rejects_forbidden ("DROP TABLE students")
     ⟨"DROP", by decide, by decide⟩).1⟩

/-- C2: for every SQL string whose trimmed, upper-cased text does not
begin with SELECT, `validate_sql` returns `valid=false`, regardless of
forbidden-keyword presence. -/
theorem C2_validate_requires_select (sql : String)
    (h : "SELECT".data.isPrefixOf (pyStripL (pyUpper sql).data) = false) :
    (validate_sql sql).valid = false := by
  cases hf : dangerous_keywords.find? (fun k => occursIn k.data (pyUpper sql).data) with
  | none => simp [validate_sql, hf, h]
  | some k => simp [validate_sql, hf]

theorem C2_witness :
    "SELECT".data.isPrefixOf (pyStripL (pyUpper ("show tables")).data) = false ∧
    (validate_sql ("show tables")).valid = false :=
  ⟨by decide, C2_validate_requires_select ("show tables") (by decide)⟩

/-- C5: any exception raised during prompt construction, model
invocation, or SQL normalization inside `generate_sql` yields
`success=false`, `error` equal to the exception's message, and
`sql=None`. -/
theorem C5_generate_sql_failure (e : String) :
    generate_sql (Except.error e) = ⟨false, none, some e⟩ := rfl

/-- C6: `identify_relevant_tables` always returns a non-empty list;
with no curated keyword occurring in the lower-cased question it
returns exactly the fixed core set; and a question containing "lead"
yields a list including `lead_master`. -/
theorem C6_relevant_tables (q : String) :
    identify_relevant_tables q ≠ [] ∧
    ((∀ tk ∈ table_keywords, ∀ k ∈ tk.2, occursIn k.data (pyLower q).data = false) →
      identify_relevant_tables q = main_tables) ∧
    (occursIn ("lead").data (pyLower q).data = true →
      "lead_master" ∈ identify_relevant_tables q) := by
  refine ⟨?_, ?_, ?_⟩
  · simp only [identify_relevant_tables]
    split
    · decide
    · next hne => exact fun he => hne (by rw [he]; rfl)
  · intro hall
    have hnil : table_keywords.filter
        (fun tk => tk.2.any (fun k => occursIn k.data (pyLower q).data)) = [] := by
      rw [List.filter_eq_nil_iff]
      intro tk htk hpred
      rw [List.any_eq_true] at hpred
      obtain ⟨k, hk, hkk⟩ := hpred
      rw [hall tk htk k hk] at hkk
      cases hkk
    simp [identify_relevant_tables, hnil]
  · intro hlead
    have hmem : ("lead_master",
        ["lead", "customer", "mobile", "phone", "source", "cre", "follow"])
        ∈ table_keywords := by decide
    have hpred : (["lead", "customer", "mobile", "phone", "source", "cre",
        "follow"].any (fun k => occursIn k.data (pyLower q).data)) = true := by
      rw [List.any_eq_true]
      exact ⟨"lead", by decide, hlead⟩
    have hmm : "lead_master" ∈ (table_keywords.filter
        (fun tk => tk.2.any (fun k => occursIn k.data (pyLower q).data))).map Prod.fst :=
      List.mem_map.mpr ⟨_, List.mem_filter.mpr ⟨hmem, hpred⟩, rfl⟩
    simp only [identify_relevant_tables]
    split
    · next hemp =>
      rw [List.isEmpty_iff] at hemp
      rw [hemp] at hmm
      cases hmm
    · exact hmm

theorem C6_witness :
    identify_relevant_tables ("How many leads last week?") ≠ [] ∧
    "lead_master" ∈ identify_relevant_tables ("How many leads last week?") ∧
    identify_relevant_tables ("hmm") = main_tables :=
  ⟨(C6_relevant_tables ("How many leads last week?")).1,
   (C6_relevant_tables ("How many leads last week?")).2.2 (by decide),
   (C6_relevant_tables ("hmm")).2.1 (by decide)⟩

/-- C3: on a connection-class error from the first execute,
`execute_query` reconnects once and retries the statement exactly once;
a failing retry yields `success=false` with the retry-exhausted message
and no further attempts; a successful retry yields `success=true`;
a failing reconnection ends the call without a retry. -/
theorem C3_retry_once (env : DBEnv) (sql m : String)
    (h1 : env.ensure1 = true)
    (h2 : (validate_sql sql).valid = true)
    (h3 : env.exec1 = ExecOutcome.connError m) :
    (env.ensure2 = false →
       (executeQuery env sql).result.success = false ∧
       (executeQuery env sql).attempts = 1 ∧
       (executeQuery env sql).ensures = 2) ∧
    (env.ensure2 = true →
       (∀ desc rows, env.exec2 = ExecOutcome.ok desc rows →
          (executeQuery env sql).result.success = true ∧
          (executeQuery env sql).attempts = 2 ∧
          (executeQuery env sql).ensures = 2) ∧
       (∀ m2, env.exec2.errMsg = some m2 →
          (executeQuery env sql).result.success = false ∧
          (executeQuery env sql).result.error =
            some ("Query execution failed after reconnect: " ++ m2) ∧
          (executeQuery env sql).attempts = 2 ∧
          (executeQuery env sql).ensures = 2)) := by
  obtain ⟨e1, e2, x1, x2⟩ := env
  simp only at h1 h3
  subst h1
  subst h3
  have hv : ¬((validate_sql sql).valid = false) := by rw [h2]; exact Bool.true_eq_false.mp
  constructor
  · intro he2
    simp only at he2
    subst he2
    simp [executeQuery, hv, successResult]
  · intro he2
    simp only at he2
    subst he2
    constructor
    · intro desc rows hx2
      simp only at hx2
      subst hx2
      simp [executeQuery, hv, successResult]
    · intro m2 hm2
      cases x2 with
      | ok desc rows => cases hm2
      | connError m2' =>
        rw [Option.some_inj.mp hm2]
        simp [executeQuery, hv]
      | pgError m2' =>
        rw [Option.some_inj.mp hm2]
        simp [executeQuery, hv]
      | otherError m2' =>
        rw [Option.some_inj.mp hm2]
        simp [executeQuery, hv]

theorem C3_witness :
    ((executeQuery envRetryFail ("SELECT 1")).result.success = false ∧
     (executeQuery envRetryFail ("SELECT 1")).result.error =
       some ("Query execution failed after reconnect: still unreachable") ∧
     (executeQuery envRetryFail ("SELECT 1")).attempts = 2) ∧
    ((executeQuery envRetryOk ("SELECT 1")).result.success = true ∧
     (executeQuery envRetryOk ("SELECT 1")).attempts = 2) := by
  constructor
  · have h := (C3_retry_once envRetryFail ("SELECT 1")
      ("server closed the connection") (by decide) (by decide) (by decide)).2 (by decide)
    obtain ⟨hs, he, ha, _⟩ := h.2 ("still unreachable") (by decide)
    exact ⟨hs, he, ha⟩
  · have h := (C3_retry_once envRetryOk ("SELECT 1")
      ("server closed the connection") (by decide) (by decide) (by decide)).2 (by decide)
    obtain ⟨hs, ha, _⟩ := h.1 ["c"] [["1"]] (by decide)
    exact ⟨hs, ha⟩

/-- C9 (amended): the `'columns'` key is present in the returned dict
exactly on the success path of `execute_query`; every failure path
omits it. -/
theorem C9_columns_iff_success (env : DBEnv) (sql : String) :
    ((executeQuery env sql).result.columns?).isSome
      = (executeQuery env sql).result.success := by
  obtain ⟨e1, e2, x1, x2⟩ := env
  cases e1
  · simp [executeQuery]
  · by_cases hv : (validate_sql sql).valid = false
    · simp [executeQuery, hv]
    · cases x1 with
      | ok desc rows => simp [executeQuery, hv, successResult]
      | connError m =>
        cases e2
        · simp [executeQuery, hv]
        · cases x2 <;> simp [executeQuery, hv, successResult]
      | pgError m => simp [executeQuery, hv]
      | otherError m => simp [executeQuery, hv]

theorem C9_counterexample :
    (executeQuery envValidationOnly ("DROP TABLE leads")).result.success = false ∧
    (executeQuery envValidationOnly ("DROP TABLE leads")).result.columns? = none := by
  decide

/-- C10 (amended): for every SQL string rejected by `validate_sql`,
`execute_query` returns `success=false` and never submits the statement
to the cursor; when connection establishment succeeded, the returned
error is the validation error. -/
theorem C10_revalidation (env : DBEnv) (sql : String)
    (h : (validate_sql sql).valid = false) :
    (executeQuery env sql).result.success = false ∧
    (executeQuery env sql).attempts = 0 ∧
    (env.ensure1 = true →
      (executeQuery env sql).result.error = (validate_sql sql).error) := by
  obtain ⟨e1, e2, x1, x2⟩ := env
  cases e1
  · simp [executeQuery]
  · simp [executeQuery, h]

theorem C10_witness :
    (validate_sql ("DELETE FROM lead_master")).valid = false ∧
    (executeQuery envReachable ("DELETE FROM lead_master")).result.success = false ∧
    (executeQuery envReachable ("DELETE FROM lead_master")).attempts = 0 ∧
    (executeQuery envReachable ("DELETE FROM lead_master")).result.error
      = (validate_sql ("DELETE FROM lead_master")).error := by
  have h := C10_revalidation envReachable ("DELETE FROM lead_master") (by decide)
  exact ⟨by decide, h.1, h.2.1, h.2.2 (by decide)⟩

theorem C10_counterexample :
    (validate_sql ("DROP TABLE lead_master")).valid = false ∧
    (executeQuery envUnreachable ("DROP TABLE lead_master")).result.success = false ∧
    (executeQuery envUnreachable ("DROP TABLE lead_master")).result.error
      ≠ (validate_sql ("DROP TABLE lead_master")).error := by
  decide

/-- C4 (amended): on every successful `execute_query` call the result's
columns are the cursor description's names, `row_count = len(data)`,
the records are the rows zipped positionally with the column names and
materialized as Python dicts in database row order; the positional
pairing is recoverable from each record whenever the column names are
pairwise distinct (duplicate names collapse in the dict). -/
theorem C4_success_shape (env : DBEnv) (sql : String)
    (h : (executeQuery env sql).result.success = true) :
    ∃ desc rows,
      (env.exec1 = ExecOutcome.ok desc rows ∨
        (∃ m, env.exec1 = ExecOutcome.connError m ∧ env.ensure2 = true ∧
          env.exec2 = ExecOutcome.ok desc rows)) ∧
      (executeQuery env sql).result.columns? = some desc ∧
      (executeQuery env sql).result.data =
        some (rows.map (fun row => pyDict (desc.zip row))) ∧
      (executeQuery env sql).result.row_count =
        (rows.map (fun row => pyDict (desc.zip row))).length ∧
      (desc.Nodup → ∀ row ∈ rows, pairsPositionally (pyDict (desc.zip row)) desc row) := by
  obtain ⟨e1, e2, x1, x2⟩ := env
  cases e1
  · simp [executeQuery] at h
  · by_cases hv : (validate_sql sql).valid = false
    · simp [executeQuery, hv] at h
    · cases x1 with
      | ok desc rows =>
        refine ⟨desc, rows, Or.inl rfl, ?_, ?_, ?_, ?_⟩
        · simp [executeQuery, hv, successResult]
        · simp [executeQuery, hv, successResult]
        · simp [executeQuery, hv, successResult]
        · intro hnd row hrow
          exact pyDict_pairs_pos desc row hnd
      | connError m =>
        cases e2
        · simp [executeQuery, hv] at h
        · cases x2 with
          | ok desc rows =>
            refine ⟨desc, rows, Or.inr ⟨m, rfl, rfl, rfl⟩, ?_, ?_, ?_, ?_⟩
            · simp [executeQuery, hv, successResult]
            · simp [executeQuery, hv, successResult]
            · simp [executeQuery, hv, successResult]
            · intro hnd row hrow
              exact pyDict_pairs_pos desc row hnd
          | connError m2 => simp [executeQuery, hv] at h
          | pgError m2 => simp [executeQuery, hv] at h
          | otherError m2 => simp [executeQuery, hv] at h
      | pgError m => simp [executeQuery, hv] at h
      | otherError m => simp [executeQuery, hv] at h

theorem C4_witness :
    (executeQuery envTwoCols ("SELECT a, b FROM t")).result.success = true ∧
    ∃ desc rows,
      (envTwoCols.exec1 = ExecOutcome.ok desc rows ∨
        (∃ m, envTwoCols.exec1 = ExecOutcome.connError m ∧ envTwoCols.ensure2 = true ∧
          envTwoCols.exec2 = ExecOutcome.ok desc rows)) ∧
      (executeQuery envTwoCols ("SELECT a, b FROM t")).result.columns? = some desc ∧
      (executeQuery envTwoCols ("SELECT a, b FROM t")).result.data =
        some (rows.map (fun row => pyDict (desc.zip row))) ∧
      (executeQuery envTwoCols ("SELECT a, b FROM t")).result.row_count =
        (rows.map (fun row => pyDict (desc.zip row))).length ∧
      (desc.Nodup → ∀ row ∈ rows, pairsPositionally (pyDict (desc.zip row)) desc row) :=
  ⟨by decide, C4_success_shape envTwoCols ("SELECT a, b FROM t") (by decide)⟩

theorem C4_counterexample :
    (executeQuery envDupCols ("SELECT a, a FROM t")).result.success = true ∧
    (executeQuery envDupCols ("SELECT a, a FROM t")).result.columns? = some ["a", "a"] ∧
    (executeQuery envDupCols ("SELECT a, a FROM t")).result.data = some [[("a", "2")]] ∧
    ¬ pairsPositionally [[("a", "2")]].head! ["a", "a"] ["1", "2"] := by
  refine ⟨by decide, by decide, by decide, ?_⟩
  intro hp
  have h0 := hp 0 (by decide) (by decide)
  exact absurd h0 (by decide)

/-- C7 (amended): with no visualization-intent keyword in the question,
the shape heuristic of `determine_chart_type` proceeds to chart
classification whenever the data has at least one numeric column, a
date-like column and at least 3 rows (a date-like column alone does not
suffice); conversely, with a single row, a numeric column and no date
or categorical columns, visualization is declined without invoking the
language model. -/
theorem C7_shape_heuristic (q : String) (data : List PyRecord) (cols : List String)
    (hkw : visualization_keywords.any
      (fun k => occursIn k.data (pyLower q).data) = false) :
    ((classifyColumns data cols).numeric ≠ [] →
     (classifyColumns data cols).date ≠ [] →
     3 ≤ data.length →
     determine_chart_decision q data cols
       = ChartDecision.askModel (classifyColumns data cols)) ∧
    (data.length = 1 →
     (classifyColumns data cols).numeric ≠ [] →
     (classifyColumns data cols).categorical = [] →
     (classifyColumns data cols).date = [] →
     determine_chart_decision q data cols = ChartDecision.noViz) := by
  constructor
  · intro hn hd h3
    have hne : data ≠ [] := by
      intro he
      rw [he] at h3
      simp at h3
    have hnum : 0 < (classifyColumns data cols).numeric.length :=
      List.length_pos.mpr hn
    have hdat : 0 < (classifyColumns data cols).date.length :=
      List.length_pos.mpr hd
    simp [determine_chart_decision, hkw, hne, hnum, hdat, h3]
  · intro h1 hn hc hd
    have hne : data ≠ [] := by
      intro he
      rw [he] at h1
      simp at h1
    simp [determine_chart_decision, hkw, hne, h1, hc, hd]

theorem C7_counterexample :
    (classifyColumns rowsDatesOnly ["d"]).date = ["d"] ∧
    (classifyColumns rowsDatesOnly ["d"]).numeric = [] ∧
    rowsDatesOnly.length = 3 ∧
    visualization_keywords.any
      (fun k => occursIn k.data (pyLower ("dates of the last calls")).data) = false ∧
    determine_chart_decision ("dates of the last calls") rowsDatesOnly ["d"]
      = ChartDecision.noViz := by
  decide

theorem C7_witness :
    determine_chart_decision ("dates of the last calls") rowsNumDates ["n", "d"]
      = ChartDecision.askModel (classifyColumns rowsNumDates ["n", "d"]) ∧
    determine_chart_decision ("dates of the last calls") rowsOneNum ["n"]
      = ChartDecision.noViz :=
  ⟨(C7_shape_heuristic ("dates of the last calls") rowsNumDates ["n", "d"]
      (by decide)).1 (by decide) (by decide) (by decide),
   (C7_shape_heuristic ("dates of the last calls") rowsOneNum ["n"]
      (by decide)).2 (by decide) (by decide) (by decide) (by decide)⟩

/-- C8 (amended): `clean_sql_query` is idempotent on every input whose
normalized output contains no residual code-fence marker; in general a
fence marker that survives the first pass (for instance shielded by
leading whitespace, since the fence-removal passes run before the
whitespace trim) is removed by a second application, so idempotence
fails on all strings. -/
theorem C8_clean_idem_no_fence (s : String)
    (h : occursIn ("```").data (clean_sql_query s).data = false) :
    clean_sql_query (clean_sql_query s) = clean_sql_query s :=
  clean_sql_query_eq_self (clean_sql_query s) h (clean_data_stripped s)
    (clean_ends_semi s)

theorem C8_witness :
    occursIn ("```").data (clean_sql_query ("SELECT 1")).data = false ∧
    clean_sql_query (clean_sql_query ("SELECT 1")) = clean_sql_query ("SELECT 1") :=
  ⟨by decide, C8_clean_idem_no_fence ("SELECT 1") (by decide)⟩

theorem C8_counterexample :
    clean_sql_query ("  ```sql select") = "```sql select;" ∧
    clean_sql_query (clean_sql_query ("  ```sql select")) = "select;" ∧
    clean_sql_query (clean_sql_query ("  ```sql select"))
      ≠ clean_sql_query ("  ```sql select") := by
  refine ⟨by decide, by decide, ?_⟩
  decide
